import Mathlib

/-!
# Verification of the nav2_smac_planner state-lattice node model

Shallow embedding of `nav2_smac_planner/node_lattice.hpp` (NodeLattice,
LatticeMotionTable) and of the operations its specification describes.

Conventions of the embedding:
* C++ `unsigned int` arithmetic is embedded as `Nat` with an explicit
  `% 2^32` wherever a computed value can wrap.
* C++ `float` quantities that are only ever compared/added/multiplied are
  embedded as `ℚ` (the claims under study are about sign, ordering and
  field identity, not rounding).
* Functions whose bodies live in the repository's `.cpp` files (absent from
  the sources at hand: only the header is available) are modelled from the
  specification; each such definition carries a doc comment starting with
  `Modelled from the spec:`.
-/

namespace Nav2Lattice

/-- Modulus of C++ `unsigned int` arithmetic (32-bit). -/
def U32 : ℕ := 2 ^ 32

/-- Discretized cell coordinates `(x, y, theta)`.
Source: `NodeHybrid::Coordinates` as used by `NodeLattice::getCoords`
(node_lattice.hpp:116, 280-289).  The C++ struct stores the three integer
components in `float` fields; the integer values themselves are embedded. -/
structure Coordinates where
  x : ℕ
  y : ℕ
  theta : ℕ
deriving DecidableEq, Repr

/-- Modelled from the spec: `NodeHybrid::getIndex(x, y, angle, width, angle_quantization)`
(its body is in node_hybrid.hpp, not among the sources).  Spec §4.2:
"`getIndex(x, y, angleBin)` ... implement a fixed bijection:
`index = (y*width + x) * angleBinCount + angleBin`; heading is the
fastest-varying component."  Unsigned arithmetic wraps at `2^32`; since
`Nat.mod` is a semiring homomorphism on `+` and `*`, a single outer
reduction is exact. -/
def NodeHybrid.getIndex (x y angle width angle_quantization : ℕ) : ℕ :=
  ((y * width + x) * angle_quantization + angle) % U32

/-- `NodeLattice::getIndex(x, y, angle)` (node_lattice.hpp:264-271):
delegates to `NodeHybrid::getIndex` with the static motion table's
`size_x` and `num_angle_quantization`.  The table's two relevant fields are
passed explicitly here. -/
def NodeLattice.getIndexWith (size_x num_angle_quantization x y angle : ℕ) : ℕ :=
  NodeHybrid.getIndex x y angle size_x num_angle_quantization

/-- `NodeLattice::getCoords(index, width, angle_quantization)`
(node_lattice.hpp:280-289):
`x = (index / angle_quantization) % width`,
`y = index / (angle_quantization * width)`,
`theta = index % angle_quantization`.
The product `angle_quantization * width` is an unsigned multiplication and
so wraps at `2^32`. -/
def NodeLattice.getCoords (index width angle_quantization : ℕ) : Coordinates :=
  { x := (index / angle_quantization) % width
    y := index / ((angle_quantization * width) % U32)
    theta := index % angle_quantization }

/-- Continuous (sub-cell) pose, `NodeHybrid::Coordinates` as stored in
`NodeLattice::pose` (node_lattice.hpp:391): three real-valued components,
embedded over `ℚ`. -/
structure CoordinatesQ where
  x : ℚ
  y : ℚ
  theta : ℚ
deriving DecidableEq, Repr

/-- State of one `NodeLattice` search vertex: the public members `parent`
and `pose` (node_lattice.hpp:390-391) and the private members
`_cell_cost`, `_accumulated_cost`, `_index`, `_was_visited`, `_is_queued`,
`_motion_primitive_index` (node_lattice.hpp:395-400).  The raw parent
pointer is embedded as an optional node index. -/
structure SNode where
  parent : Option ℕ
  pose : CoordinatesQ
  cell_cost : ℚ
  accumulated_cost : ℚ
  index : ℕ
  was_visited : Bool
  is_queued : Bool
  motion_primitive_index : ℕ
deriving DecidableEq, Repr

/-- `NodeLattice::visited()` (node_lattice.hpp:211-215):
`_was_visited = true; _is_queued = false;`. -/
def SNode.visited (n : SNode) : SNode :=
  { n with was_visited := true, is_queued := false }

/-- `NodeLattice::queued()` (node_lattice.hpp:229-232): `_is_queued = true;`. -/
def SNode.queued (n : SNode) : SNode :=
  { n with is_queued := true }

/-- Modelled from the spec: the body of `NodeLattice::reset()` is in
node_lattice.cpp, which is not among the sources (the header only declares
it, node_lattice.hpp:152).  Spec §4.4: "`reset()`: clears accumulated
cost, visited flag, queued flag, parent, motion-primitive index".
Cleared numeric fields return to their zero/empty values. -/
def SNode.reset (n : SNode) : SNode :=
  { n with accumulated_cost := 0, was_visited := false, is_queued := false,
           parent := none, motion_primitive_index := 0 }

/-- One step of the per-episode node state machine: the three mutating
operations the search loop may apply to a node's bookkeeping. -/
inductive NodeOp where
  | resetStep
  | queuedStep
  | visitedStep
deriving DecidableEq, Repr

/-- Apply one state-machine step to a node. -/
def NodeOp.apply : NodeOp → SNode → SNode
  | .resetStep, n => n.reset
  | .queuedStep, n => n.queued
  | .visitedStep, n => n.visited

/-- Apply a sequence of state-machine steps, left to right. -/
def applyOps (ops : List NodeOp) (n : SNode) : SNode :=
  ops.foldl (fun m op => op.apply m) n

/-- Concrete node used by witnesses: queued, unvisited, with a parent and a
nonzero primitive index. -/
def sampleNode : SNode :=
  { parent := some 7, pose := ⟨1/2, 3/2, 1⟩, cell_cost := 5,
    accumulated_cost := 9, index := 23, was_visited := false,
    is_queued := true, motion_primitive_index := 2 }

/-- One motion primitive endpoint, `MotionPose` (types.hpp, declared via
node_lattice.hpp:79): a relative `(Δx, Δy, Δheading)` offset. -/
structure MotionPose where
  x : ℚ
  y : ℚ
  theta : ℚ
deriving DecidableEq, Repr

/-- Modelled from the spec: `TrigValues` (types.hpp, not among the sources)
caches "(sin, cos) per heading bin" (spec §3).  The embedding has no
transcendental functions over `ℚ`, so a cache entry is represented by the
bin orientation it is computed from; the claims under study only inspect
whether the cache is rebuilt or left unchanged, never the numeric sine. -/
abbrev TrigValues := ℚ

/-- Modelled from the spec: the "curvature-aware state-space handle (e.g.
Reeds-Shepp/Dubins model)" (spec §3), `ompl::base::StateSpacePtr` in the
header (node_lattice.hpp:101).  It is represented by the minimum turning
radius that parameterizes it (spec §4.1: "constructs the curvature-aware
state-space handle parameterized by the minimum turning radius"). -/
structure StateSpaceHandle where
  min_turning_radius : ℚ
deriving DecidableEq, Repr

/-- Modelled from the spec: `SearchInfo` (types.hpp, not among the
sources).  Spec §6: "externally supplied record carrying motion-model
selection, all penalty weights, minimum turning radius, angular
resolution"; the lattice variant also carries the primitive-file path
(spec §4.1). -/
structure SearchInfo where
  minimum_turning_radius : ℚ
  change_penalty : ℚ
  non_straight_penalty : ℚ
  cost_penalty : ℚ
  reverse_penalty : ℚ
  obstacle_heuristic_cost_weight : ℚ
  lattice_filepath : String
deriving DecidableEq, Repr

/-- Modelled from the spec: the header of a primitive file — "angular-bin
count, minimum turning radius, bin size" (spec §6). -/
structure LatticeFileHeader where
  num_angle_quantization : ℕ
  min_turning_radius : ℚ
  bin_size : ℚ
deriving DecidableEq, Repr

/-- Modelled from the spec: a primitive file — "a header ... and a body
(per-bin primitive pose sequences)" (spec §6). -/
structure LatticeFileContent where
  header : LatticeFileHeader
  primitives_by_bin : List (List MotionPose)
deriving DecidableEq, Repr

/-- Modelled from the spec: the file system as seen by the loader — a
path-identified resource that may be missing. -/
def FileSystemModel := String → Option LatticeFileContent

/-- Parse failure of the primitive file (spec §7): the file is missing or
structurally invalid. -/
inductive ParseError where
  | missingFile
  | malformed
deriving DecidableEq, Repr

/-- Modelled from the spec: structural validity of a primitive file — a
nonzero angular-bin count and one primitive list per bin. -/
def structurallyValid (c : LatticeFileContent) : Bool :=
  c.header.num_angle_quantization != 0 &&
  c.primitives_by_bin.length == c.header.num_angle_quantization

/-- Modelled from the spec: reading and structurally validating a primitive
file (spec §4.1, §7: "Fails with a ParseError if the file is missing or
structurally invalid"). -/
def parseLatticeFile (fs : FileSystemModel) (path : String) :
    Except ParseError LatticeFileContent :=
  match fs path with
  | none => .error .missingFile
  | some c => if structurallyValid c then .ok c else .error .malformed

/-- `LatticeMotionTable` (node_lattice.hpp:56-104), fields in source order
(node_lattice.hpp:90-103).  `projections` keeps the spec's per-heading-bin
layout (spec §3: "for each heading bin, an ordered list of MotionPose"). -/
structure LatticeMotionTable where
  projections : List (List MotionPose)
  size_x : ℕ
  num_angle_quantization : ℕ
  num_angle_quantization_float : ℚ
  min_turning_radius : ℚ
  bin_size : ℚ
  change_penalty : ℚ
  non_straight_penalty : ℚ
  cost_penalty : ℚ
  reverse_penalty : ℚ
  obstacle_heuristic_cost_weight : ℚ
  state_space : StateSpaceHandle
  trig_values : List TrigValues
  current_lattice_filepath : String
deriving DecidableEq, Repr

/-- Modelled from the spec: the trig cache built for all bins during a
rebuild (spec §4.1: "builds the trig cache for all bins"); one entry per
heading bin, at that bin's orientation. -/
def buildTrigCache (c : LatticeFileContent) : List TrigValues :=
  (List.range c.header.num_angle_quantization).map
    (fun b => (b : ℚ) * c.header.bin_size)

/-- Modelled from the spec: the projections table built from the parsed
file (spec §4.1).  The per-bin rotation of each primitive endpoint into its
bin's frame is carried by the per-bin file body; the file's fixed primitive
order is preserved (spec §3: "Order is fixed by primitive-file order"). -/
def buildProjections (c : LatticeFileContent) : List (List MotionPose) :=
  c.primitives_by_bin

/-- Modelled from the spec: a full rebuild of the motion table from a
successfully parsed primitive file (spec §4.1): metadata from the file
header, penalty weights copied from the search configuration, state-space
handle parameterized by the file's minimum turning radius, trig cache and
projections built from the file. -/
def buildMotionTable (size_x_in : ℕ) (info : SearchInfo)
    (c : LatticeFileContent) : LatticeMotionTable :=
  { projections := buildProjections c
    size_x := size_x_in
    num_angle_quantization := c.header.num_angle_quantization
    num_angle_quantization_float := (c.header.num_angle_quantization : ℚ)
    min_turning_radius := c.header.min_turning_radius
    bin_size := c.header.bin_size
    change_penalty := info.change_penalty
    non_straight_penalty := info.non_straight_penalty
    cost_penalty := info.cost_penalty
    reverse_penalty := info.reverse_penalty
    obstacle_heuristic_cost_weight := info.obstacle_heuristic_cost_weight
    state_space := ⟨c.header.min_turning_radius⟩
    trig_values := buildTrigCache c
    current_lattice_filepath := info.lattice_filepath }

/-- Modelled from the spec: `LatticeMotionTable::initMotionModel(size_x_in,
search_info)` (declared node_lattice.hpp:70-72; body in node_lattice.cpp,
not among the sources).  Spec §4.1: "if the configured primitive-file path
and grid size match the currently-loaded state, this is a no-op (cache
hit).  Otherwise: parses the primitive file fully ... Fails with a
ParseError if the file is missing or structurally invalid; on failure no
partial table state is committed."  Rendered as a state transition: the
result pairs the table after the call with the surfaced error, if any. -/
def runInitMotionModel (t : LatticeMotionTable) (size_x_in : ℕ)
    (info : SearchInfo) (fs : FileSystemModel) :
    LatticeMotionTable × Option ParseError :=
  if info.lattice_filepath = t.current_lattice_filepath ∧ size_x_in = t.size_x
  then (t, none)
  else
    match parseLatticeFile fs info.lattice_filepath with
    | .error e => (t, some e)
    | .ok c => (buildMotionTable size_x_in info c, none)

/-- One motion primitive as consulted by the traversal-cost computation:
its arc length, whether it is straight, its travel direction and its
primitive class. -/
structure MotionPrimitive where
  arc_length : ℚ
  is_straight : Bool
  forward : Bool
  class_id : ℕ
deriving DecidableEq, Repr

/-- Modelled from the spec: the straight/forward/same-class baseline of
the traversal cost — "base cost is the primitive's arc length scaled by
`cost_penalty` and the local costmap cost" (spec §4.4). -/
def travelBaseCost (t : LatticeMotionTable) (child : MotionPrimitive)
    (cell_cost : ℚ) : ℚ :=
  child.arc_length * t.cost_penalty * cell_cost

/-- Modelled from the spec: `NodeLattice::getTraversalCost(child)`
(declared node_lattice.hpp:255; body in node_lattice.cpp, not among the
sources).  Spec §4.4: "additive penalties apply when the primitive curves
(`non_straight_penalty`), when the primitive class differs from the
parent's (`change_penalty`), or when travel direction reverses relative to
the parent (`reverse_penalty`)". -/
def getTraversalCost (t : LatticeMotionTable) (parentPrim childPrim : MotionPrimitive)
    (cell_cost : ℚ) : ℚ :=
  travelBaseCost t childPrim cell_cost
    + (if childPrim.is_straight then 0 else t.non_straight_penalty)
    + (if childPrim.class_id = parentPrim.class_id then 0 else t.change_penalty)
    + (if childPrim.forward = parentPrim.forward then 0 else t.reverse_penalty)

/-- Concrete primitive-file content used by witnesses: 4 angular bins,
one straight primitive per bin. -/
def sampleContent : LatticeFileContent :=
  { header := { num_angle_quantization := 4, min_turning_radius := 3,
                bin_size := 1/2 }
    primitives_by_bin := [[⟨1, 0, 0⟩], [⟨0, 1, 1⟩], [⟨-1, 0, 2⟩], [⟨0, -1, 3⟩]] }

/-- Concrete motion table used by witnesses, loaded from path
`lattice_a` with positive penalty weights. -/
def sampleTable : LatticeMotionTable :=
  { projections := [[⟨1, 0, 0⟩]]
    size_x := 10
    num_angle_quantization := 4
    num_angle_quantization_float := 4
    min_turning_radius := 2
    bin_size := 1/2
    change_penalty := 1
    non_straight_penalty := 2
    cost_penalty := 3
    reverse_penalty := 4
    obstacle_heuristic_cost_weight := 1/10
    state_space := ⟨2⟩
    trig_values := [0, 1/2, 1, 3/2]
    current_lattice_filepath := "lattice_a" }

/-- Concrete search configuration naming the already-loaded path. -/
def sampleInfoA : SearchInfo :=
  { minimum_turning_radius := 2, change_penalty := 1, non_straight_penalty := 2,
    cost_penalty := 3, reverse_penalty := 4,
    obstacle_heuristic_cost_weight := 1/10, lattice_filepath := "lattice_a" }

/-- Concrete search configuration naming a different primitive file. -/
def sampleInfoB : SearchInfo :=
  { minimum_turning_radius := 3, change_penalty := 1, non_straight_penalty := 2,
    cost_penalty := 3, reverse_penalty := 4,
    obstacle_heuristic_cost_weight := 1/10, lattice_filepath := "lattice_b" }

/-- A file system with no primitive files at all. -/
def fsEmpty : FileSystemModel := fun _ => none

/-- A file system holding `sampleContent` at path `lattice_b`. -/
def fsWithB : FileSystemModel :=
  fun p => if p = "lattice_b" then some sampleContent else none

/-- A straight forward primitive of class 0, for witnesses. -/
def primStraight : MotionPrimitive :=
  { arc_length := 1, is_straight := true, forward := true, class_id := 0 }

/-- A curved reversing primitive of class 1, for witnesses. -/
def primCurvedRev : MotionPrimitive :=
  { arc_length := 3/2, is_straight := false, forward := false, class_id := 1 }

/-- Heading bin of a continuous pose: the integer part of the stored
heading component (the lattice node stores its angular bin in the pose's
theta slot). -/
def headingBin (p : CoordinatesQ) : ℕ := (⌊p.theta⌋).toNat

/-- Modelled from the spec: `LatticeMotionTable::getProjections(node)`
(declared node_lattice.hpp:79; body not among the sources).  Spec §4.1:
"O(1) lookup of the projections list for the node's current heading bin.
Returns an empty list if no table is loaded." -/
def LatticeMotionTable.getProjections (t : LatticeMotionTable) (n : SNode) :
    List MotionPose :=
  t.projections.getD (headingBin n.pose) []

/-- Modelled from the spec: the external collision-checker capability
(spec §6): "`isValid(pose, headingBin, traverseUnknown) -> bool`, supplied
externally, wrapping a costmap and robot footprint". -/
structure GridCollisionChecker where
  isValidAt : CoordinatesQ → ℕ → Bool → Bool

/-- Modelled from the spec: `NodeLattice::isNodeValid(traverse_unknown,
collision_checker)` (declared node_lattice.hpp:248; body not among the
sources).  Spec §4.4: "delegates to the external collision checker with
this node's continuous pose and heading bin ... Pure boolean contract, no
failure signal beyond false." -/
def isNodeValid (traverse_unknown : Bool) (cc : GridCollisionChecker)
    (n : SNode) : Bool :=
  cc.isValidAt n.pose (headingBin n.pose) traverse_unknown

/-- Modelled from the spec: the absolute successor pose of one motion
primitive — the relative `(Δx, Δy)` endpoint offset applied to the node's
pose, with the primitive's end heading (already expressed in the node's
bin frame by the projections table). -/
def addMotionPose (p : CoordinatesQ) (m : MotionPose) : CoordinatesQ :=
  ⟨p.x + m.x, p.y + m.y, m.theta⟩

/-- Modelled from the spec: the bounds check of a candidate successor
against the grid (spec §4.4: "bounds-checks it against the grid"). -/
def inGridBounds (t : LatticeMotionTable) (p : CoordinatesQ) : Bool :=
  decide (0 ≤ p.x) && decide (p.x < (t.size_x : ℚ)) && decide (0 ≤ p.y)

/-- Flattened cell index of a continuous pose, via the shared coordinate
mapping. -/
def poseIndex (t : LatticeMotionTable) (p : CoordinatesQ) : ℕ :=
  NodeLattice.getIndexWith t.size_x t.num_angle_quantization
    (⌊p.x⌋).toNat (⌊p.y⌋).toNat (headingBin p)

/-- Modelled from the spec: the fate of one candidate motion primitive in
neighbor generation (spec §4.4): compute the absolute successor pose,
bounds-check it, look the cell up through the externally-supplied validity
predicate, collision-check with `isNodeValid`; a surviving candidate is
the looked-up node carrying the successor pose, anything else is silently
dropped. -/
def neighborCandidate (t : LatticeMotionTable) (np : CoordinatesQ)
    (validity_checker : ℕ → Option SNode) (cc : GridCollisionChecker)
    (traverse_unknown : Bool) (mp : MotionPose) : Option SNode :=
  if inGridBounds t (addMotionPose np mp) then
    match validity_checker (poseIndex t (addMotionPose np mp)) with
    | some m =>
      if isNodeValid traverse_unknown cc { m with pose := addMotionPose np mp }
      then some { m with pose := addMotionPose np mp }
      else none
    | none => none
  else none

/-- Modelled from the spec: `NodeLattice::getNeighbors(validity_checker,
collision_checker, traverse_unknown, neighbors)` (declared
node_lattice.hpp:384-388; body not among the sources).  Spec §4.4: "for
each MotionPose from `getProjections(this)` ... appends surviving
candidates in the fixed primitive order". -/
def getNeighbors (t : LatticeMotionTable) (node : SNode)
    (validity_checker : ℕ → Option SNode) (cc : GridCollisionChecker)
    (traverse_unknown : Bool) : List SNode :=
  (t.getProjections node).filterMap
    (neighborCandidate t node.pose validity_checker cc traverse_unknown)

/-- A collision checker that accepts every pose, for witnesses. -/
def ccAll : GridCollisionChecker := ⟨fun _ _ _ => true⟩

/-- A validity checker that yields a graph node for every index, for
witnesses. -/
def vcAll : ℕ → Option SNode := fun i => some { sampleNode with index := i }

/-- A concrete expansion start node at the origin of heading bin 0. -/
def startNode : SNode := { sampleNode with pose := ⟨0, 0, 0⟩ }

/-- The neighbor `getNeighbors` produces from `startNode` under
`sampleTable`, `vcAll` and `ccAll`. -/
def expectedNeighbor : SNode :=
  { sampleNode with index := 4, pose := ⟨1, 0, 0⟩ }

/-- Motion model selection (`MotionModel`, constants.hpp, not among the
sources; spec §6 names it "motion-model selection"). -/
inductive MotionModel where
  | twoD
  | dubins
  | reedsShepp
  | stateLattice
deriving DecidableEq, Repr

/-- Modelled from the spec: the externally-owned costmap (spec §6:
"read-only grid exposing per-cell traversal cost"). -/
structure Costmap where
  size_x : ℕ
  size_y : ℕ
  cost : ℕ → ℕ → ℕ

/-- Cost threshold above which a cell is an untraversable obstacle
(costmap convention). -/
def lethalCost : ℕ := 254

/-- A cell the distance-field expansion may pass through. -/
def traversable (cm : Costmap) (c : ℕ × ℕ) : Bool :=
  decide (cm.cost c.1 c.2 < lethalCost)

/-- A costmap-wide distance field: cell `(x, y)` to extended-natural
distance-to-goal (`⊤` = unreached/untraversable). -/
def HeuristicField := ℕ × ℕ → ℕ∞

/-- In-grid 4-connected neighborhood of a cell. -/
def nhood4 (cm : Costmap) (c : ℕ × ℕ) : List (ℕ × ℕ) :=
  (if c.1 + 1 < cm.size_x then [(c.1 + 1, c.2)] else []) ++
  (if 0 < c.1 then [(c.1 - 1, c.2)] else []) ++
  (if c.2 + 1 < cm.size_y then [(c.1, c.2 + 1)] else []) ++
  (if 0 < c.2 then [(c.1, c.2 - 1)] else [])

/-- Modelled from the spec: the cost of expanding into a cell — one unit of
path length plus the weighted inflated obstacle cost of the entered cell
(spec §4.3: "a lower bound on path length to goal that accounts for
inflated obstacle cost"); obstacle cells are never entered.  `cw` is the
scaled-to-integer obstacle-cost weight. -/
def stepCost (cm : Costmap) (cw : ℕ) (c : ℕ × ℕ) : ℕ∞ :=
  if traversable cm c then ((1 + cw * cm.cost c.1 c.2 : ℕ) : ℕ∞) else ⊤

/-- One dynamic-programming relaxation pass: each cell keeps the minimum of
its current value and entry through any 4-neighbor. -/
def relaxOnce (cm : Costmap) (cw : ℕ) (f : HeuristicField) : HeuristicField :=
  fun c => (nhood4 cm c).foldr (fun n acc => min acc (f n + stepCost cm cw c)) (f c)

/-- The seed field: zero at the goal, unreached elsewhere. -/
def goalField (g : ℕ × ℕ) : HeuristicField :=
  fun c => if c = g then 0 else ⊤

/-- Modelled from the spec: the obstacle-heuristic distance field — a
dynamic-programming pass "expanding outward from the goal over traversable
cells" (spec §4.3), relaxed for one pass per grid cell (enough for any
simple path to converge). -/
def obstacleField (cm : Costmap) (cw : ℕ) (g : ℕ × ℕ) : HeuristicField :=
  Nat.iterate (relaxOnce cm cw) (cm.size_x * cm.size_y) (goalField g)

/-- Modelled from the spec: the "true distance" of a cell from the goal in
the claim's sense — the length in cells of the shortest 4-connected path
over traversable cells, i.e. the same dynamic program with unit step
weights (obstacle weight 0). -/
def trueCellDistance (cm : Costmap) (gx gy : ℕ) : HeuristicField :=
  obstacleField cm 0 (gx, gy)

/-- Modelled from the spec: `NodeHybrid::resetObstacleHeuristic(costmap,
goal_x, goal_y)` (node_hybrid.hpp/cpp, not among the sources; spec §4.3
computes the shared field "once per (costmap, goal) pair").  Functional
rendering: the computed cached field is returned.  `cw` is the table's
scaled obstacle-cost weight. -/
def NodeHybrid.resetObstacleHeuristic (cw : ℕ) (cm : Costmap)
    (goal_x goal_y : ℕ) : HeuristicField :=
  obstacleField cm cw (goal_x, goal_y)

/-- Modelled from the spec: `NodeHybrid::getObstacleHeuristic(costmap,
node_coords, goal_coords)` is "a cached lookup, not a per-call
recomputation" (spec §4.3); the cached field is passed explicitly. -/
def NodeHybrid.getObstacleHeuristic (cached : HeuristicField)
    (node_coords goal_coords : ℕ × ℕ) : ℕ∞ :=
  cached node_coords

/-- `NodeLattice::resetObstacleHeuristic` (node_lattice.hpp:341-347):
"State Lattice and Hybrid-A* share this heuristics" — a direct delegation
to `NodeHybrid::resetObstacleHeuristic`. -/
def NodeLattice.resetObstacleHeuristic (cw : ℕ) (cm : Costmap)
    (goal_x goal_y : ℕ) : HeuristicField :=
  NodeHybrid.resetObstacleHeuristic cw cm goal_x goal_y

/-- `NodeLattice::getObstacleHeuristic` (node_lattice.hpp:356-362): direct
delegation to `NodeHybrid::getObstacleHeuristic`. -/
def NodeLattice.getObstacleHeuristic (cached : HeuristicField)
    (node_coords goal_coords : ℕ × ℕ) : ℕ∞ :=
  NodeHybrid.getObstacleHeuristic cached node_coords goal_coords

/-- Modelled from the spec: the distance-heuristic lookup table built once
per planner configuration (spec §4.3).  Its numeric entries come from the
external curvature-aware state space (OMPL, outside this repository); the
table is a deterministic function of the recorded build parameters. -/
structure DistHeuristicLookup where
  lookup_table_dim : ℚ
  dim_3_size : ℕ
  min_turning_radius : ℚ
  motion_model : MotionModel
deriving DecidableEq, Repr

/-- Modelled from the spec: `NodeHybrid::precomputeDistanceHeuristic`
(node_hybrid.hpp/cpp, not among the sources; spec §4.3 "builds once, per
planner configuration" the curvature-constrained lookup). -/
def NodeHybrid.precomputeDistanceHeuristic (lookup_table_dim : ℚ)
    (mm : MotionModel) (dim_3_size : ℕ) (info : SearchInfo) :
    DistHeuristicLookup :=
  { lookup_table_dim := lookup_table_dim
    dim_3_size := dim_3_size
    min_turning_radius := info.minimum_turning_radius
    motion_model := mm }

/-- `NodeLattice::precomputeDistanceHeuristic` (node_lattice.hpp:326-334):
"State Lattice and Hybrid-A* share this heuristics" — direct delegation to
`NodeHybrid::precomputeDistanceHeuristic`. -/
def NodeLattice.precomputeDistanceHeuristic (lookup_table_dim : ℚ)
    (mm : MotionModel) (dim_3_size : ℕ) (info : SearchInfo) :
    DistHeuristicLookup :=
  NodeHybrid.precomputeDistanceHeuristic lookup_table_dim mm dim_3_size info

/-- A 2×2 obstacle-free costmap, for witnesses. -/
def freeMap2 : Costmap := ⟨2, 2, fun _ _ => 0⟩

/- ———————————————————————— theorems ———————————————————————— -/

/-- Helper: an in-range flattened index survives the coords-then-index round
trip.  `W`, `H`, `A` are grid width, grid height and angle-bin count. -/
lemma coords_index_roundtrip (W H A i : ℕ) (hA : 0 < A)
    (hfit : W * H * A ≤ U32) (hi : i < W * H * A) :
    NodeLattice.getIndexWith W A (NodeLattice.getCoords i W A).x
      (NodeLattice.getCoords i W A).y (NodeLattice.getCoords i W A).theta = i := by
  have hH : 0 < H := by
    rcases Nat.eq_zero_or_pos H with h0 | h; · subst h0; simp at hi
    exact h
  have haw_le : A * W ≤ U32 := by
    refine le_trans ?_ hfit
    calc A * W = A * W * 1 := by ring
      _ ≤ A * W * H := Nat.mul_le_mul_left _ hH
      _ = W * H * A := by ring
  simp only [NodeLattice.getCoords, NodeLattice.getIndexWith, NodeHybrid.getIndex]
  rcases lt_or_eq_of_le haw_le with hlt | heq
  · rw [Nat.mod_eq_of_lt hlt]
    have hdd : i / (A * W) = i / A / W := (Nat.div_div_eq_div_mul i A W).symm
    rw [hdd]
    have key : (i / A / W * W + i / A % W) * A + i % A = i := by
      rw [Nat.div_add_mod' (i / A) W, Nat.div_add_mod' i A]
    rw [key]
    exact Nat.mod_eq_of_lt (lt_of_lt_of_le hi hfit)
  · -- the grid exactly fills the unsigned range: `A * W = 2^32` forces `H = 1`
    have hU : (0:ℕ) < U32 := by norm_num [U32]
    have hone : H = 1 := by
      have h1 : W * H * A ≤ A * W := heq ▸ hfit
      have h2 : A * W * H = A * W * 1 := by
        have := le_antisymm h1 (by calc A * W = A * W * 1 := by ring
          _ ≤ A * W * H := Nat.mul_le_mul_left _ hH
          _ = W * H * A := by ring)
        calc A * W * H = W * H * A := by ring
          _ = A * W := this
          _ = A * W * 1 := by ring
      exact Nat.eq_of_mul_eq_mul_left (heq ▸ hU) h2
    have hiaw : i < A * W := by
      have : W * H * A = A * W := by rw [hone]; ring
      exact this ▸ hi
    rw [heq, Nat.mod_self]
    simp only [Nat.div_zero, Nat.zero_mul, Nat.zero_add]
    have hdiv : i / A < W := by
      rw [Nat.div_lt_iff_lt_mul hA]
      calc i < A * W := hiaw
        _ = W * A := by ring
    rw [Nat.mod_eq_of_lt hdiv, Nat.div_add_mod' i A]
    exact Nat.mod_eq_of_lt (lt_of_lt_of_le hiaw (le_of_eq heq))

/-- Helper: in-range coordinates survive the index-then-coords round trip. -/
lemma index_coords_roundtrip (W H A x y t : ℕ) (hA : 0 < A)
    (hfit : W * H * A ≤ U32) (hx : x < W) (hy : y < H) (ht : t < A) :
    NodeLattice.getCoords (NodeLattice.getIndexWith W A x y t) W A = ⟨x, y, t⟩ := by
  have hW : 0 < W := lt_of_le_of_lt (Nat.zero_le x) hx
  have hH : 0 < H := lt_of_le_of_lt (Nat.zero_le y) hy
  have hbase : y * W + x + 1 ≤ W * H := by
    calc y * W + x + 1 ≤ y * W + W := by omega
      _ = (y + 1) * W := by ring
      _ ≤ H * W := Nat.mul_le_mul_right W hy
      _ = W * H := by ring
  have hvlt : (y * W + x) * A + t < W * H * A := by
    calc (y * W + x) * A + t < (y * W + x) * A + A := Nat.add_lt_add_left ht _
      _ = (y * W + x + 1) * A := by ring
      _ ≤ W * H * A := Nat.mul_le_mul_right A hbase
  have hvU : (y * W + x) * A + t < U32 := lt_of_lt_of_le hvlt hfit
  have haw_le : A * W ≤ U32 := by
    refine le_trans ?_ hfit
    calc A * W = A * W * 1 := by ring
      _ ≤ A * W * H := Nat.mul_le_mul_left _ hH
      _ = W * H * A := by ring
  have hdivA : ((y * W + x) * A + t) / A = y * W + x := by
    have hrw : (y * W + x) * A + t = A * (y * W + x) + t := by ring
    rw [hrw, Nat.mul_add_div hA, Nat.div_eq_of_lt ht, Nat.add_zero]
  have hxc : (y * W + x) % W = x := by
    have hrw : y * W + x = W * y + x := by ring
    rw [hrw, Nat.mul_add_mod]; exact Nat.mod_eq_of_lt hx
  have hyc : (y * W + x) / W = y := by
    have hrw : y * W + x = W * y + x := by ring
    rw [hrw, Nat.mul_add_div hW, Nat.div_eq_of_lt hx, Nat.add_zero]
  simp only [NodeLattice.getIndexWith, NodeHybrid.getIndex, NodeLattice.getCoords,
    Coordinates.mk.injEq]
  rw [Nat.mod_eq_of_lt hvU]
  have hthc : ((y * W + x) * A + t) % A = t := by
    have hrw : (y * W + x) * A + t = A * (y * W + x) + t := by ring
    rw [hrw, Nat.mul_add_mod]; exact Nat.mod_eq_of_lt ht
  refine ⟨by rw [hdivA, hxc], ?_, hthc⟩
  rcases lt_or_eq_of_le haw_le with hlt | heq
  · rw [Nat.mod_eq_of_lt hlt, ← Nat.div_div_eq_div_mul, hdivA, hyc]
  · have hU : (0:ℕ) < U32 := by norm_num [U32]
    have hone : H = 1 := by
      have h1 : W * H * A ≤ A * W := heq ▸ hfit
      have h2 : A * W * H = A * W * 1 := by
        have h3 := le_antisymm h1 (by calc A * W = A * W * 1 := by ring
          _ ≤ A * W * H := Nat.mul_le_mul_left _ hH
          _ = W * H * A := by ring)
        calc A * W * H = W * H * A := by ring
          _ = A * W := h3
          _ = A * W * 1 := by ring
      exact Nat.eq_of_mul_eq_mul_left (heq ▸ hU) h2
    rw [heq, Nat.mod_self, Nat.div_zero]
    omega

end Nav2Lattice

namespace Nav2Lattice

/-- C1: `getIndex` and `getCoords` form the fixed bijection
`index = (y*width + x) * angleBinCount + angleBin` with heading
fastest-varying: every valid index `i < W*H*A` survives the
coords-then-index round trip, and every in-extent `(x, y, angleBin)`
survives the index-then-coords round trip.  The hypothesis
`W*H*A ≤ 2^32` says the configured grid fits the `unsigned int`
index space in which both functions compute. -/
theorem C1_coordinate_mapping_bijection (W H A : ℕ) (hA : 0 < A)
    (hfit : W * H * A ≤ U32) :
    (∀ i, i < W * H * A →
      NodeLattice.getIndexWith W A (NodeLattice.getCoords i W A).x
        (NodeLattice.getCoords i W A).y (NodeLattice.getCoords i W A).theta = i) ∧
    (∀ x y t, x < W → y < H → t < A →
      NodeLattice.getCoords (NodeLattice.getIndexWith W A x y t) W A = ⟨x, y, t⟩) :=
  ⟨fun i hi => coords_index_roundtrip W H A i hA hfit hi,
   fun x y t hx hy ht => index_coords_roundtrip W H A x y t hA hfit hx hy ht⟩

/-- Witness for C1 on the concrete grid `W = 3`, `H = 2`, `A = 4`,
index `17` and coordinates `(2, 1, 3)`. -/
theorem C1_coordinate_mapping_bijection_witness :
    NodeLattice.getIndexWith 3 4 (NodeLattice.getCoords 17 3 4).x
      (NodeLattice.getCoords 17 3 4).y (NodeLattice.getCoords 17 3 4).theta = 17 ∧
    NodeLattice.getCoords (NodeLattice.getIndexWith 3 4 2 1 3) 3 4 = ⟨2, 1, 3⟩ :=
  ⟨(C1_coordinate_mapping_bijection 3 2 4 (by norm_num)
      (by norm_num [U32])).1 17 (by norm_num),
   (C1_coordinate_mapping_bijection 3 2 4 (by norm_num)
      (by norm_num [U32])).2 2 1 3 (by norm_num) (by norm_num) (by norm_num)⟩

/-- C10: `getCoords` is total and performs no range check: for every index
`i` whatsoever (in-range or not) the returned `theta` is below the angle
quantization and the returned `x` is below the width; an out-of-range
index is not detected — only the `y` component can leave the grid, as the
second conjunct exhibits (the first index past the valid range already
yields `y = H`, which exceeds the largest valid row `H - 1`). -/
theorem C10_getCoords_total_no_range_check (W A : ℕ) (hW : 0 < W) (hA : 0 < A) :
    (∀ i, (NodeLattice.getCoords i W A).theta < A ∧
      (NodeLattice.getCoords i W A).x < W) ∧
    (∀ H, 0 < H → W * H * A < U32 →
      ∃ i, i < U32 ∧ H ≤ (NodeLattice.getCoords i W A).y) := by
  constructor
  · intro i
    exact ⟨Nat.mod_lt _ hA, Nat.mod_lt _ hW⟩
  · intro H hH hlt
    refine ⟨W * H * A, hlt, ?_⟩
    have hAW : A * W < U32 := by
      refine lt_of_le_of_lt ?_ hlt
      calc A * W = A * W * 1 := by ring
        _ ≤ A * W * H := Nat.mul_le_mul_left _ hH
        _ = W * H * A := by ring
    simp only [NodeLattice.getCoords]
    rw [Nat.mod_eq_of_lt hAW, show W * H * A = A * W * H from by ring,
      Nat.mul_div_cancel_left H (Nat.mul_pos hA hW)]

/-- Witness for C10 on the concrete grid `W = 3`, `A = 5`, probe index `7`
and requested row bound `H = 2`. -/
theorem C10_getCoords_total_no_range_check_witness :
    ((NodeLattice.getCoords 7 3 5).theta < 5 ∧
      (NodeLattice.getCoords 7 3 5).x < 3) ∧
    (∃ i, i < U32 ∧ 2 ≤ (NodeLattice.getCoords i 3 5).y) :=
  ⟨(C10_getCoords_total_no_range_check 3 5 (by norm_num) (by norm_num)).1 7,
   (C10_getCoords_total_no_range_check 3 5 (by norm_num) (by norm_num)).2 2
     (by norm_num) (by norm_num [U32])⟩

/-- C4: after `reset()`, in every prior state, the accumulated cost,
visited flag, queued flag, parent back-reference and motion-primitive
index are all cleared. -/
theorem C4_reset_clears_bookkeeping (n : SNode) :
    (n.reset).accumulated_cost = 0 ∧
    (n.reset).was_visited = false ∧
    (n.reset).is_queued = false ∧
    (n.reset).parent = none ∧
    (n.reset).motion_primitive_index = 0 :=
  ⟨rfl, rfl, rfl, rfl, rfl⟩

/-- C9: `visited()` sets the visited flag and simultaneously clears the
queued flag, so a node is never both visited and queued immediately after
the transition; after `reset()` a node is unvisited and unqueued, and
`queued()` takes it to queued-but-unvisited (the `unvisited → queued →
visited` progression); and under any sequence of non-reset steps a visited
node stays visited — visited is terminal for the episode. -/
theorem C9_visited_terminal_state_machine :
    (∀ n : SNode, (n.visited).was_visited = true ∧ (n.visited).is_queued = false) ∧
    (∀ n : SNode, ((n.reset).was_visited = false ∧ (n.reset).is_queued = false) ∧
      ((n.reset.queued).is_queued = true ∧ (n.reset.queued).was_visited = false)) ∧
    (∀ (ops : List NodeOp) (n : SNode),
      (∀ op ∈ ops, op ≠ NodeOp.resetStep) → n.was_visited = true →
      (applyOps ops n).was_visited = true) := by
  refine ⟨fun n => ⟨rfl, rfl⟩, fun n => ⟨⟨rfl, rfl⟩, ⟨rfl, rfl⟩⟩, ?_⟩
  intro ops
  induction ops with
  | nil => intro n _ h; exact h
  | cons op rest ih =>
    intro n hops h
    refine ih (op.apply n) (fun o ho => hops o (List.mem_cons_of_mem _ ho)) ?_
    cases op with
    | resetStep => exact absurd rfl (hops _ (List.mem_cons_self _ _))
    | queuedStep => simpa [NodeOp.apply, SNode.queued] using h
    | visitedStep => rfl

/-- Witness for C9 at a concrete node and a concrete non-reset step
sequence. -/
theorem C9_visited_terminal_state_machine_witness :
    ((sampleNode.visited).was_visited = true ∧
      (sampleNode.visited).is_queued = false) ∧
    (applyOps [NodeOp.queuedStep, NodeOp.visitedStep]
      sampleNode.visited).was_visited = true :=
  ⟨C9_visited_terminal_state_machine.1 sampleNode,
   C9_visited_terminal_state_machine.2.2 [NodeOp.queuedStep, NodeOp.visitedStep]
     sampleNode.visited (by decide) rfl⟩

end Nav2Lattice

namespace Nav2Lattice

/-- C3: for every parent and child primitive, `getTraversalCost` is
non-negative (given non-negative weights, arc length and cell cost), and
it strictly exceeds the straight/forward/same-class baseline whenever the
curvature, direction-reversal or class-change penalty condition applies
with a positive corresponding weight. -/
theorem C3_traversal_cost_nonneg_and_penalized
    (t : LatticeMotionTable) (pp cp : MotionPrimitive) (cell : ℚ)
    (harc : 0 ≤ cp.arc_length) (hcp : 0 ≤ t.cost_penalty) (hcell : 0 ≤ cell)
    (hns : 0 ≤ t.non_straight_penalty) (hch : 0 ≤ t.change_penalty)
    (hrev : 0 ≤ t.reverse_penalty) :
    0 ≤ getTraversalCost t pp cp cell ∧
    (cp.is_straight = false → 0 < t.non_straight_penalty →
      travelBaseCost t cp cell < getTraversalCost t pp cp cell) ∧
    (cp.class_id ≠ pp.class_id → 0 < t.change_penalty →
      travelBaseCost t cp cell < getTraversalCost t pp cp cell) ∧
    (cp.forward ≠ pp.forward → 0 < t.reverse_penalty →
      travelBaseCost t cp cell < getTraversalCost t pp cp cell) := by
  have hbase : 0 ≤ travelBaseCost t cp cell :=
    mul_nonneg (mul_nonneg harc hcp) hcell
  unfold getTraversalCost
  refine ⟨?_, ?_, ?_, ?_⟩
  · split_ifs <;> linarith
  · intro h hpos; simp only [h]; split_ifs <;> simp_all <;> linarith
  · intro h hpos; split_ifs <;> simp_all <;> linarith
  · intro h hpos; split_ifs <;> simp_all <;> linarith

/-- Witness for C3 at a concrete table, a straight-forward parent
primitive and a curved reversing child of a different class. -/
theorem C3_traversal_cost_nonneg_and_penalized_witness :
    0 ≤ getTraversalCost sampleTable primStraight primCurvedRev 5 ∧
    travelBaseCost sampleTable primCurvedRev 5 <
      getTraversalCost sampleTable primStraight primCurvedRev 5 :=
  ⟨(C3_traversal_cost_nonneg_and_penalized sampleTable primStraight primCurvedRev 5
      (by norm_num [primCurvedRev]) (by norm_num [sampleTable]) (by norm_num)
      (by norm_num [sampleTable]) (by norm_num [sampleTable])
      (by norm_num [sampleTable])).1,
   (C3_traversal_cost_nonneg_and_penalized sampleTable primStraight primCurvedRev 5
      (by norm_num [primCurvedRev]) (by norm_num [sampleTable]) (by norm_num)
      (by norm_num [sampleTable]) (by norm_num [sampleTable])
      (by norm_num [sampleTable])).2.1 rfl (by norm_num [sampleTable])⟩

/-- C5: if `initMotionModel` surfaces a `ParseError`, the motion table
after the call is exactly the table before the call — no field of the
table is modified (all-or-nothing rebuild). -/
theorem C5_initMotionModel_error_atomicity
    (t : LatticeMotionTable) (s : ℕ) (info : SearchInfo) (fs : FileSystemModel)
    (e : ParseError) (herr : (runInitMotionModel t s info fs).2 = some e) :
    (runInitMotionModel t s info fs).1 = t := by
  unfold runInitMotionModel at herr ⊢
  by_cases hc : info.lattice_filepath = t.current_lattice_filepath ∧ s = t.size_x
  · rw [if_pos hc]
  · rw [if_neg hc] at herr ⊢
    cases hp : parseLatticeFile fs info.lattice_filepath with
    | error e2 => rfl
    | ok c => rw [hp] at herr; simp at herr

/-- Witness for C5: loading a missing file fails and leaves the concrete
table untouched. -/
theorem C5_initMotionModel_error_atomicity_witness :
    (runInitMotionModel sampleTable 10 sampleInfoB fsEmpty).1 = sampleTable :=
  C5_initMotionModel_error_atomicity sampleTable 10 sampleInfoB fsEmpty
    ParseError.missingFile rfl

/-- C6: a second `initMotionModel` call naming the currently-loaded
primitive-file path and grid size is a cache-hit no-op returning the table
unchanged with no error; a call naming a different path that parses
successfully fully rebuilds the table — projections, trig cache and
state-space handle all come from the new file, and the recorded path is
the new one. -/
theorem C6_initMotionModel_cache_hit_and_rebuild
    (t : LatticeMotionTable) (s : ℕ) (info : SearchInfo) (fs : FileSystemModel) :
    (info.lattice_filepath = t.current_lattice_filepath → s = t.size_x →
      runInitMotionModel t s info fs = (t, none)) ∧
    (∀ c, info.lattice_filepath ≠ t.current_lattice_filepath →
      parseLatticeFile fs info.lattice_filepath = .ok c →
      runInitMotionModel t s info fs = (buildMotionTable s info c, none) ∧
      (runInitMotionModel t s info fs).1.projections = buildProjections c ∧
      (runInitMotionModel t s info fs).1.trig_values = buildTrigCache c ∧
      (runInitMotionModel t s info fs).1.state_space =
        ⟨c.header.min_turning_radius⟩ ∧
      (runInitMotionModel t s info fs).1.current_lattice_filepath =
        info.lattice_filepath) := by
  constructor
  · intro h1 h2
    unfold runInitMotionModel
    rw [if_pos ⟨h1, h2⟩]
  · intro c hne hp
    have hcond : ¬(info.lattice_filepath = t.current_lattice_filepath ∧
        s = t.size_x) := fun hc => hne hc.1
    unfold runInitMotionModel
    rw [if_neg hcond, hp]
    exact ⟨rfl, rfl, rfl, rfl, rfl⟩

/-- Witness for C6: re-loading `lattice_a` at the same grid size is a
no-op on the concrete table; loading `lattice_b` rebuilds every cached
structure from `sampleContent`. -/
theorem C6_initMotionModel_cache_hit_and_rebuild_witness :
    runInitMotionModel sampleTable 10 sampleInfoA fsWithB = (sampleTable, none) ∧
    (runInitMotionModel sampleTable 10 sampleInfoB fsWithB).1.trig_values =
      buildTrigCache sampleContent ∧
    (runInitMotionModel sampleTable 10 sampleInfoB fsWithB).1.state_space =
      ⟨sampleContent.header.min_turning_radius⟩ :=
  ⟨(C6_initMotionModel_cache_hit_and_rebuild sampleTable 10 sampleInfoA fsWithB).1
      rfl rfl,
   ((C6_initMotionModel_cache_hit_and_rebuild sampleTable 10 sampleInfoB
      fsWithB).2 sampleContent (by decide) rfl).2.2.1,
   ((C6_initMotionModel_cache_hit_and_rebuild sampleTable 10 sampleInfoB
      fsWithB).2 sampleContent (by decide) rfl).2.2.2.1⟩

end Nav2Lattice

namespace Nav2Lattice

/-- Helper: a candidate that survives neighbor generation passed the
collision/validity check. -/
lemma neighborCandidate_valid (t : LatticeMotionTable) (np : CoordinatesQ)
    (vc : ℕ → Option SNode) (cc : GridCollisionChecker) (tu : Bool)
    (mp : MotionPose) (m : SNode)
    (h : neighborCandidate t np vc cc tu mp = some m) :
    isNodeValid tu cc m = true := by
  unfold neighborCandidate at h
  by_cases hb : inGridBounds t (addMotionPose np mp) = true
  case neg => rw [if_neg hb] at h; exact absurd h (by simp)
  rw [if_pos hb] at h
  cases hvc : vc (poseIndex t (addMotionPose np mp)) with
  | none => rw [hvc] at h; exact absurd h (by simp)
  | some m1 =>
    rw [hvc] at h
    dsimp only at h
    by_cases hv :
        isNodeValid tu cc { m1 with pose := addMotionPose np mp } = true
    · rw [if_pos hv] at h
      have h2 := Option.some.inj h
      rw [← h2]
      exact hv
    · rw [if_neg hv] at h; exact absurd h (by simp)

/-- C2: every neighbor appended by `getNeighbors` satisfies
`isNodeValid(traverse_unknown, collision_checker) = true`; candidates
failing the validity predicate or the collision check are silently
excluded from the output. -/
theorem C2_neighbors_all_satisfy_isNodeValid
    (t : LatticeMotionTable) (node : SNode) (vc : ℕ → Option SNode)
    (cc : GridCollisionChecker) (tu : Bool) (m : SNode)
    (hm : m ∈ getNeighbors t node vc cc tu) :
    isNodeValid tu cc m = true := by
  unfold getNeighbors at hm
  rw [List.mem_filterMap] at hm
  obtain ⟨mp, -, hsome⟩ := hm
  exact neighborCandidate_valid t node.pose vc cc tu mp m hsome

/-- Witness for C2: the concrete expansion of `startNode` produces
`expectedNeighbor`, which the theorem certifies collision-valid. -/
theorem C2_neighbors_all_satisfy_isNodeValid_witness :
    isNodeValid true ccAll expectedNeighbor = true :=
  C2_neighbors_all_satisfy_isNodeValid sampleTable startNode vcAll ccAll true
    expectedNeighbor (by
      norm_num [getNeighbors, LatticeMotionTable.getProjections,
        neighborCandidate, headingBin, addMotionPose, inGridBounds, poseIndex,
        NodeLattice.getIndexWith, NodeHybrid.getIndex, U32, isNodeValid, ccAll,
        vcAll, sampleTable, startNode, sampleNode, expectedNeighbor])

end Nav2Lattice

namespace Nav2Lattice

/-- Helper: folding `min` over a list never rises above the seed. -/
lemma foldr_min_le {α : Type} (l : List α) (g : α → ℕ∞) (b : ℕ∞) :
    l.foldr (fun n acc => min acc (g n)) b ≤ b := by
  induction l with
  | nil => exact le_refl b
  | cons a l2 ih =>
    simp only [List.foldr_cons]
    exact le_trans (min_le_left _ _) ih

/-- Helper: one relaxation pass never increases a cell's value. -/
lemma relaxOnce_le (cm : Costmap) (cw : ℕ) (f : HeuristicField) (c : ℕ × ℕ) :
    relaxOnce cm cw f c ≤ f c :=
  foldr_min_le (nhood4 cm c) _ (f c)

/-- Helper: the goal cell stays at distance 0 through every relaxation
pass. -/
lemma iterate_goal_zero (cm : Costmap) (cw : ℕ) (g : ℕ × ℕ) (k : ℕ) :
    Nat.iterate (relaxOnce cm cw) k (goalField g) g = 0 := by
  induction k with
  | zero => simp [goalField]
  | succ k ih =>
    rw [Function.iterate_succ_apply']
    exact le_antisymm (le_trans (relaxOnce_le _ _ _ _) (le_of_eq ih)) (zero_le _)

/-- Helper: in an obstacle-free costmap every step costs one unit,
whatever the obstacle weight. -/
lemma stepCost_obstacle_free (cm : Costmap) (cw : ℕ)
    (hfree : ∀ x y, cm.cost x y = 0) : stepCost cm cw = stepCost cm 0 := by
  funext c
  simp [stepCost, hfree c.1 c.2]

/-- Helper: in an obstacle-free costmap the weighted distance field is the
unit-step distance field. -/
lemma obstacleField_obstacle_free (cm : Costmap) (cw : ℕ) (g : ℕ × ℕ)
    (hfree : ∀ x y, cm.cost x y = 0) :
    obstacleField cm cw g = obstacleField cm 0 g := by
  have hrelax : relaxOnce cm cw = relaxOnce cm 0 := by
    funext f c
    unfold relaxOnce
    rw [stepCost_obstacle_free cm cw hfree]
  unfold obstacleField
  rw [hrelax]

/-- C7: after `resetObstacleHeuristic(costmap, gx, gy)`, the obstacle
heuristic at the goal itself is 0; and in an obstacle-free field the
heuristic value is non-decreasing in the true (4-connected cell) distance
of the queried node from the goal. -/
theorem C7_obstacle_heuristic_goal_zero_and_monotone
    (cm : Costmap) (cw : ℕ) (gx gy : ℕ) :
    NodeLattice.getObstacleHeuristic
      (NodeLattice.resetObstacleHeuristic cw cm gx gy) (gx, gy) (gx, gy) = 0 ∧
    ((∀ x y, cm.cost x y = 0) → ∀ a b : ℕ × ℕ,
      trueCellDistance cm gx gy a ≤ trueCellDistance cm gx gy b →
      NodeLattice.getObstacleHeuristic
        (NodeLattice.resetObstacleHeuristic cw cm gx gy) a (gx, gy) ≤
      NodeLattice.getObstacleHeuristic
        (NodeLattice.resetObstacleHeuristic cw cm gx gy) b (gx, gy)) := by
  constructor
  · exact iterate_goal_zero cm cw (gx, gy) (cm.size_x * cm.size_y)
  · intro hfree a b hab
    have he : NodeLattice.resetObstacleHeuristic cw cm gx gy =
        trueCellDistance cm gx gy :=
      obstacleField_obstacle_free cm cw (gx, gy) hfree
    show NodeLattice.resetObstacleHeuristic cw cm gx gy a ≤
      NodeLattice.resetObstacleHeuristic cw cm gx gy b
    rw [he]
    exact hab

/-- Witness for C7 on a concrete 2×2 obstacle-free costmap with goal
`(0, 0)` and obstacle weight 3: zero at the goal, and the value one cell
away does not exceed the value two cells away. -/
theorem C7_obstacle_heuristic_goal_zero_and_monotone_witness :
    NodeLattice.getObstacleHeuristic
      (NodeLattice.resetObstacleHeuristic 3 freeMap2 0 0) (0, 0) (0, 0) = 0 ∧
    NodeLattice.getObstacleHeuristic
      (NodeLattice.resetObstacleHeuristic 3 freeMap2 0 0) (0, 1) (0, 0) ≤
    NodeLattice.getObstacleHeuristic
      (NodeLattice.resetObstacleHeuristic 3 freeMap2 0 0) (1, 1) (0, 0) :=
  ⟨(C7_obstacle_heuristic_goal_zero_and_monotone freeMap2 3 0 0).1,
   (C7_obstacle_heuristic_goal_zero_and_monotone freeMap2 3 0 0).2
     (fun _ _ => rfl) (0, 1) (1, 1) (by decide)⟩

/-- C8: the static helpers of `NodeLattice` compute exactly the same
functions as the corresponding `NodeHybrid` operations — `getIndex`,
`precomputeDistanceHeuristic`, `resetObstacleHeuristic` and
`getObstacleHeuristic` are pointwise equal, so heuristic caches built
against one node type are valid for the other. -/
theorem C8_static_helpers_shared_with_hybrid :
    (∀ size_x num_angle_quantization x y a : ℕ,
      NodeLattice.getIndexWith size_x num_angle_quantization x y a =
        NodeHybrid.getIndex x y a size_x num_angle_quantization) ∧
    (∀ (d : ℚ) (mm : MotionModel) (d3 : ℕ) (info : SearchInfo),
      NodeLattice.precomputeDistanceHeuristic d mm d3 info =
        NodeHybrid.precomputeDistanceHeuristic d mm d3 info) ∧
    (∀ (cw : ℕ) (cm : Costmap) (gx gy : ℕ),
      NodeLattice.resetObstacleHeuristic cw cm gx gy =
        NodeHybrid.resetObstacleHeuristic cw cm gx gy) ∧
    (∀ (cached : HeuristicField) (nc gc : ℕ × ℕ),
      NodeLattice.getObstacleHeuristic cached nc gc =
        NodeHybrid.getObstacleHeuristic cached nc gc) :=
  ⟨fun _ _ _ _ _ => rfl, fun _ _ _ _ => rfl, fun _ _ _ _ => rfl,
   fun _ _ _ => rfl⟩

end Nav2Lattice
